import Mathlib

/-!
# Verification of the `ssb_sirius_dash` quality-control (kontroll) framework

Shallow embedding of `src/ssb_sirius_dash/control/framework.py` and of
`KvalitetsindikatorTreffsikkerhet.beregn_treffsikkerhet` from
`src/ssb_sirius_dash/modals/kvalitetsindikatorer.py`.

Modelling conventions:
* Python cell/JSON values are one inductive type `JVal` (None, bool, int,
  str, list, dict); Python dicts are insertion-ordered association lists.
* A pandas `DataFrame` is a column list plus a list of rows, each row an
  association list from column name to value.  `df.copy()` is value copy,
  so pure value passing models it; the aliasing-sensitive claim (C10) uses
  an explicit store of frames instead.
* The wrapped check function and the row filter are arbitrary pure
  functions `DataFrame → DataFrame`, as the decorator accepts any callable.
* Python exceptions (`assert`, `KeyError`, `AttributeError`, `TypeError`)
  are an explicit `PyErr` value through `Except`.
* `datetime.datetime` is external library code; a datetime value is
  identified with its ISO string, with `isoformat`/`fromisoformat` the
  identity pair, which models the library contract
  `fromisoformat(d.isoformat()) == d` exactly.
* Python float division in the accuracy indicator is modelled by exact
  rational division (`ℚ`); the claims settled about it concern which
  ratio is formed, not rounding.
-/

set_option autoImplicit false

namespace SiriusDash

/-- A Python value as it appears in dataframe cells and JSON-compatible
dicts: `None`, booleans, integers, strings, lists and (ordered) dicts. -/
inductive JVal where
  | null : JVal
  | bool (b : Bool) : JVal
  | int (n : Int) : JVal
  | str (s : String) : JVal
  | arr (xs : List JVal) : JVal
  | obj (kvs : List (String × JVal)) : JVal

/-- A Python dict with string keys, in insertion order. -/
abbrev PyDict := List (String × JVal)

/-- Python `d[k]` on a dict: the value at the first matching key. -/
def dictGet (kvs : PyDict) (k : String) : Option JVal :=
  match kvs with
  | [] => none
  | (k', v) :: rest => if k' = k then some v else dictGet rest k

/-- A dataframe row: column name to cell value, in column order. -/
abbrev Row := List (String × JVal)

/-- Python `row[c]`: the cell of row `r` in column `c`. -/
def Row.get (r : Row) (c : String) : Option JVal :=
  match r with
  | [] => none
  | (c', v) :: rest => if c' = c then some v else Row.get rest c

/-- Assign `r[c] := v`: overwrite the existing cell in place, or append
the new column at the end (pandas column-assignment semantics). -/
def Row.set (r : Row) (c : String) (v : JVal) : Row :=
  match r with
  | [] => [(c, v)]
  | (c', v') :: rest =>
      if c' = c then (c', v) :: rest else (c', v') :: Row.set rest c v

/-- Remove column `c` from a row. -/
def Row.drop (r : Row) (c : String) : Row :=
  r.filter (fun p => decide (p.1 ≠ c))

/-- A pandas dataframe: the frame-level column list and the rows. -/
structure DataFrame where
  cols : List String
  rows : List Row

/-- Pandas `data.drop(columns=[c])`. -/
def DataFrame.dropColumn (df : DataFrame) (c : String) : DataFrame :=
  { cols := df.cols.filter (fun c' => decide (c' ≠ c)),
    rows := df.rows.map (fun r => Row.drop r c) }

/-- Pandas `data[c] = v`: set column `c` to the constant `v` on every row,
appending the column when it is new. -/
def DataFrame.setColumnConst (df : DataFrame) (c : String) (v : JVal) : DataFrame :=
  { cols := if c ∈ df.cols then df.cols else df.cols ++ [c],
    rows := df.rows.map (fun r => Row.set r c v) }

/-- The result-type enum of quality-control checks
(`Kontrolltype` in `framework.py`). -/
inductive Kontrolltype where
  | AUTOMATISK_OPPRETTING : Kontrolltype
  | MISSING : Kontrolltype
  | MULIG_FEIL : Kontrolltype
  | ABSOLUTT_FEIL : Kontrolltype
  deriving DecidableEq

/-- Python `member.name` of the enum. -/
def Kontrolltype.name : Kontrolltype → String
  | .AUTOMATISK_OPPRETTING => "AUTOMATISK_OPPRETTING"
  | .MISSING => "MISSING"
  | .MULIG_FEIL => "MULIG_FEIL"
  | .ABSOLUTT_FEIL => "ABSOLUTT_FEIL"

/-- Python `Kontrolltype[s]`: name-based lookup, `none` for a `KeyError`. -/
def Kontrolltype.ofName (s : String) : Option Kontrolltype :=
  if s = "AUTOMATISK_OPPRETTING" then some .AUTOMATISK_OPPRETTING
  else if s = "MISSING" then some .MISSING
  else if s = "MULIG_FEIL" then some .MULIG_FEIL
  else if s = "ABSOLUTT_FEIL" then some .ABSOLUTT_FEIL
  else none

/-- Python `for i in Kontrolltype`: the members in definition order. -/
def Kontrolltype.all : List Kontrolltype :=
  [.AUTOMATISK_OPPRETTING, .MISSING, .MULIG_FEIL, .ABSOLUTT_FEIL]

/-- One error found by a control run (`Feilrapport` in `framework.py`).
`context_id` is the raw cell value read from the id column. -/
structure Feilrapport where
  sub_control_id : String
  result_type : Kontrolltype
  context_id : JVal
  error_description : Option String
  important_variables : Option (List String)

/-- The static configuration of one `@kontroll(...)`-decorated check:
the decorator arguments plus the wrapped function's `__name__` and
`__doc__`. -/
structure KontrollConfig where
  result_type : Kontrolltype
  error_description : String
  id_column : String
  filter_for_relevant_data : Option (DataFrame → DataFrame)
  important_variables : Option (List String)
  control_name : String
  docstring : Option String

/-- One entry of the global `kontroll_dokumentasjon` dict.  The
`Relevante_variabler` field is `some` exactly when the Python key is
present (it is added only when `important_variables` is truthy). -/
structure DokEntry where
  kontrolltype : String
  feilbeskrivelse : String
  docstring : Option String
  enheter_i_datasettet : Nat
  enheter_kontrollert : Nat
  kontrollutslag : Nat
  relevante_variabler : Option (List String)
  deriving DecidableEq

/-- The global `kontroll_dokumentasjon` dict: control name to entry. -/
abbrev DokMap := List (String × DokEntry)

/-- Python dict assignment `m[k] = v`: overwrite in place when the key
exists, otherwise append. -/
def DokMap.set (m : DokMap) (k : String) (v : DokEntry) : DokMap :=
  if m.any (fun p => p.1 = k) then
    m.map (fun p => if p.1 = k then (k, v) else p)
  else m ++ [(k, v)]

/-- Lookup in a `DokMap`. -/
def DokMap.get (m : DokMap) (k : String) : Option DokEntry :=
  match m with
  | [] => none
  | (k', v) :: rest => if k' = k then some v else DokMap.get rest k

/-- A Python exception, as far as the modelled code distinguishes them. -/
inductive PyErr where
  | assertionError (msg : String) : PyErr
  | keyError (key : String) : PyErr
  | attributeError (msg : String) : PyErr
  | typeError (msg : String) : PyErr
  deriving DecidableEq

/-! ## The `kontroll` wrapper pipeline (framework.py lines 106-161)

The wrapper body is split into named stages so that the theorems can
speak about the intermediate frames; `kontrollRun` chains them exactly
as the Python code does. -/

/-- Stage 1: `data = data.copy()`; drop a pre-existing `utslag` column
(lines 109-112).  The copy itself is value semantics here. -/
def dataAfterDrop (data : DataFrame) : DataFrame :=
  if "utslag" ∈ data.cols then data.dropColumn "utslag" else data

/-- Stage 2: apply `filter_for_relevant_data` when configured
(lines 113-122). -/
def dataAfterFilter (cfg : KontrollConfig) (data : DataFrame) : DataFrame :=
  match cfg.filter_for_relevant_data with
  | some f => f (dataAfterDrop data)
  | none => dataAfterDrop data

/-- Python `total_data`: the pre-filter row count when a filter is configured,
`None` otherwise (lines 114 and 122). -/
def totalData (cfg : KontrollConfig) (data : DataFrame) : Option Nat :=
  match cfg.filter_for_relevant_data with
  | some _ => some (dataAfterDrop data).rows.length
  | none => none

/-- Stage 3: `data["utslag"] = False` (line 124). -/
def checkedData (cfg : KontrollConfig) (data : DataFrame) : DataFrame :=
  (dataAfterFilter cfg data).setColumnConst "utslag" (.bool false)

/-- Stage 4: `filtered_data = control_function(data)` (line 125). -/
def filteredData (cfg : KontrollConfig) (f : DataFrame → DataFrame)
    (data : DataFrame) : DataFrame :=
  f (checkedData cfg data)

/-- Truthiness of the `utslag` cell, as the boolean mask
`filtered_data[filtered_data["utslag"]]` reads it. -/
def isFlagged (r : Row) : Bool :=
  match Row.get r "utslag" with
  | some (.bool true) => true
  | _ => false

/-- Python `error_rows`: the rows of the check's output whose flag is set
(line 126). -/
def errorRows (cfg : KontrollConfig) (f : DataFrame → DataFrame)
    (data : DataFrame) : List Row :=
  (filteredData cfg f data).rows.filter isFlagged

/-- The `Feilrapport` built for one flagged row (lines 128-137), given
the id-column cell value of that row. -/
def mkFeilrapport (cfg : KontrollConfig) (idVal : JVal) : Feilrapport :=
  { sub_control_id := cfg.control_name,
    result_type := cfg.result_type,
    context_id := idVal,
    error_description := some cfg.error_description,
    important_variables := cfg.important_variables }

/-- The documentation entry written for this control (lines 143-155).
`Enheter i datasettet` is `total_data if total_data else data.shape[0]`,
so a present-but-zero `total_data` falls back to the post-filter count. -/
def kontrollDokEntry (cfg : KontrollConfig) (f : DataFrame → DataFrame)
    (data : DataFrame) : DokEntry :=
  { kontrolltype := cfg.result_type.name,
    feilbeskrivelse := cfg.error_description,
    docstring := cfg.docstring,
    enheter_i_datasettet :=
      match totalData cfg data with
      | some n => if n = 0 then (checkedData cfg data).rows.length else n
      | none => (checkedData cfg data).rows.length,
    enheter_kontrollert := (checkedData cfg data).rows.length,
    kontrollutslag := (errorRows cfg f data).length,
    relevante_variabler :=
      match cfg.important_variables with
      | some vs => if vs = [] then none else some vs
      | none => none }

/-- Stage 5: the frame handed back to the caller,
`data.drop(columns=["utslag"])` (lines 157-159). -/
def returnedData (cfg : KontrollConfig) (data : DataFrame) : DataFrame :=
  (checkedData cfg data).dropColumn "utslag"

/-- Everything one wrapper invocation produces: the returned frame and
the new global error list and documentation dict. -/
structure KontrollOutput where
  frame : DataFrame
  errors : List Feilrapport
  dok : DokMap

/-- One invocation of a `@kontroll(cfg)`-decorated check `f`, starting
from global state `(errors, dok)`.  `row[id_column]` on a flagged row
lacking the id column is a `KeyError`. -/
def kontrollRun (cfg : KontrollConfig) (f : DataFrame → DataFrame)
    (errors : List Feilrapport) (dok : DokMap) (data : DataFrame) :
    Except PyErr KontrollOutput :=
  match (errorRows cfg f data).mapM (fun r => Row.get r cfg.id_column) with
  | none => .error (.keyError cfg.id_column)
  | some idVals =>
      .ok { frame := returnedData cfg data,
            errors := errors ++ idVals.map (mkFeilrapport cfg),
            dok := DokMap.set dok cfg.control_name (kontrollDokEntry cfg f data) }

/-! ## `Kvalitetsrapport` and its dict serialization
(framework.py lines 166-316) -/

/-- A `datetime.datetime` value.  The datetime library is external; a
value is identified with its ISO-8601 representation, so that
`isoformat`/`fromisoformat` form the library's exact round-trip pair. -/
structure PyDatetime where
  iso : String
  deriving DecidableEq

/-- Python `datetime.isoformat()`. -/
def PyDatetime.isoformat (d : PyDatetime) : String := d.iso

/-- Python `datetime.datetime.fromisoformat(s)`. -/
def PyDatetime.fromisoformat (s : String) : PyDatetime := ⟨s⟩

/-- The quality-control report (`Kvalitetsrapport` in `framework.py`).
`quality_control_documentation` is `none` for Python `None`; a present
dict is kept as its raw value. -/
structure Kvalitetsrapport where
  statistics_name : String
  quality_control_id : String
  data_location : List String
  data_period : String
  quality_control_datetime : PyDatetime
  quality_control_results : List Kontrolltype
  quality_control_errors : List Feilrapport
  quality_control_documentation : Option JVal

/-- An optional string serialized into a dict value (`None` ↦ null). -/
def optStr : Option String → JVal
  | none => .null
  | some s => .str s

/-- An optional string list serialized into a dict value. -/
def optStrList : Option (List String) → JVal
  | none => .null
  | some l => .arr (l.map .str)

/-- Method `Feilrapport.to_dict` (framework.py lines 57-71). -/
def Feilrapport.to_dict (e : Feilrapport) : PyDict :=
  [("kontrollnavn", .str e.sub_control_id),
   ("kontrolltype", .str e.result_type.name),
   ("observasjon_id", e.context_id),
   ("feilbeskrivelse", optStr e.error_description),
   ("relevante_variabler", optStrList e.important_variables)]

/-- Method `Kvalitetsrapport.to_dict` (framework.py lines 210-235).  `gdok` is
the current global `kontroll_dokumentasjon` dict, emitted when the
report's own documentation is `None`. -/
def Kvalitetsrapport.to_dict (r : Kvalitetsrapport) (gdok : JVal) : PyDict :=
  [("statistikknavn", .str r.statistics_name),
   ("quality_control_id", .str r.quality_control_id),
   ("data_plassering", .arr (r.data_location.map .str)),
   ("data_periode", .str r.data_period),
   ("kvalitetsrapport opprettet", .str r.quality_control_datetime.isoformat),
   ("typer_kontrollutslag", .arr (r.quality_control_results.map (fun k => .str k.name))),
   ("kontrollutslag", .arr (r.quality_control_errors.map (fun e => .obj e.to_dict))),
   ("kontrolldokumentasjon",
     match r.quality_control_documentation with
     | some d => d
     | none => gdok)]

/-- Read a required string-typed dict entry.  A missing key is Python's
`KeyError`; a non-string value cannot arise from `to_dict` output and is
rejected by the typed model. -/
def getStr (d : PyDict) (k : String) : Except PyErr String :=
  match dictGet d k with
  | some (.str s) => .ok s
  | some _ => .error (.typeError k)
  | none => .error (.keyError k)

/-- Read a required list-typed dict entry. -/
def getArr (d : PyDict) (k : String) : Except PyErr (List JVal) :=
  match dictGet d k with
  | some (.arr xs) => .ok xs
  | some _ => .error (.typeError k)
  | none => .error (.keyError k)

/-- Decode one element of `data_plassering` or `typer_kontrollutslag`. -/
def decodeStr : JVal → Except PyErr String
  | .str s => .ok s
  | _ => .error (.typeError "str")

/-- Python `Kontrolltype[name]` during deserialization; an unknown name is the
lookup's `KeyError`. -/
def decodeKontrolltype (v : JVal) : Except PyErr Kontrolltype :=
  match decodeStr v with
  | .error e => .error e
  | .ok s =>
      match Kontrolltype.ofName s with
      | some k => .ok k
      | none => .error (.keyError s)

/-- The value stored for an optional string attribute read back with
`.get(...)`: an absent key or a JSON null is Python `None`. -/
def decodeOptStr (v : Option JVal) : Except PyErr (Option String) :=
  match v with
  | none => .ok none
  | some .null => .ok none
  | some (.str s) => .ok (some s)
  | some _ => .error (.typeError "optional str")

/-- The optional `relevante_variabler` list read back with `.get(...)`. -/
def decodeOptStrList (v : Option JVal) : Except PyErr (Option (List String)) :=
  match v with
  | none => .ok none
  | some .null => .ok none
  | some (.arr xs) =>
      match xs.mapM decodeStr with
      | .error e => .error e
      | .ok l => .ok (some l)
  | some _ => .error (.typeError "optional list")

/-- One element of the serialized `kontrollutslag` list, rebuilt into a
`Feilrapport` (framework.py lines 295-304). -/
def decodeFeilrapport (v : JVal) : Except PyErr Feilrapport :=
  match v with
  | .obj d =>
      match getStr d "kontrollnavn" with
      | .error e => .error e
      | .ok navn =>
          match dictGet d "kontrolltype" with
          | none => .error (.keyError "kontrolltype")
          | some tv =>
              match decodeKontrolltype tv with
              | .error e => .error e
              | .ok typ =>
                  match dictGet d "observasjon_id" with
                  | none => .error (.keyError "observasjon_id")
                  | some obsId =>
                      match decodeOptStr (dictGet d "feilbeskrivelse") with
                      | .error e => .error e
                      | .ok beskrivelse =>
                          match decodeOptStrList (dictGet d "relevante_variabler") with
                          | .error e => .error e
                          | .ok variabler =>
                              .ok { sub_control_id := navn,
                                    result_type := typ,
                                    context_id := obsId,
                                    error_description := beskrivelse,
                                    important_variables := variabler }
  | _ => .error (.typeError "kontrollutslag entry")

/-- The stored `kontrolldokumentasjon` value: Python assigns the raw
dict value to the attribute, so a JSON null would become `None` and any
other value is kept as-is. -/
def decodeDok (v : JVal) : Option JVal :=
  match v with
  | .null => none
  | d => some d

/-- Read a required list-typed entry and decode its elements. -/
def getArrMapM {α : Type} (d : PyDict) (k : String) (dec : JVal → Except PyErr α) :
    Except PyErr (List α) :=
  match getArr d k with
  | .error e => .error e
  | .ok xs => xs.mapM dec

/-- Method `Kvalitetsrapport.from_dict` (framework.py lines 268-316). -/
def Kvalitetsrapport.from_dict (d : PyDict) : Except PyErr Kvalitetsrapport :=
  match getStr d "statistikknavn" with
  | .error e => .error e
  | .ok statistics_name =>
  match getStr d "quality_control_id" with
  | .error e => .error e
  | .ok quality_control_id =>
  match getArrMapM d "data_plassering" decodeStr with
  | .error e => .error e
  | .ok data_location =>
  match getStr d "data_periode" with
  | .error e => .error e
  | .ok data_period =>
  match getStr d "kvalitetsrapport opprettet" with
  | .error e => .error e
  | .ok timestamp =>
  match getArrMapM d "typer_kontrollutslag" decodeKontrolltype with
  | .error e => .error e
  | .ok quality_control_results =>
  match getArrMapM d "kontrollutslag" decodeFeilrapport with
  | .error e => .error e
  | .ok quality_control_errors =>
  match dictGet d "kontrolldokumentasjon" with
  | none => .error (.keyError "kontrolldokumentasjon")
  | some v =>
      .ok { statistics_name := statistics_name,
            quality_control_id := quality_control_id,
            data_location := data_location,
            data_period := data_period,
            quality_control_datetime := PyDatetime.fromisoformat timestamp,
            quality_control_results := quality_control_results,
            quality_control_errors := quality_control_errors,
            quality_control_documentation := decodeDok v }

/-! ## `lag_kvalitetsrapport` (framework.py lines 319-375)

After the three asserts the function always raises: with no accumulated
errors the line `quality_results.append(Kontrolltype.OK)` is an
`AttributeError` (the enum has no member `OK`), and otherwise the call
`Kvalitetsrapport(..., corrections=corrections_list)` is a `TypeError`
(`__init__` has no `corrections` parameter). -/

/-- The report-or-pair result the docstring promises. -/
abbrev LagRapportResult := Kvalitetsrapport ⊕ (Kvalitetsrapport × DataFrame)

/-- Function `lag_kvalitetsrapport`, over the current global `error_list`.  The
three arguments are `Option` to express the `None` checks of the
asserts. -/
def lag_kvalitetsrapport (statistics_name data_location data_period : Option String)
    (also_return_control_docs : Bool) (errors : List Feilrapport) :
    Except PyErr LagRapportResult :=
  if statistics_name.isNone then
    .error (.assertionError "Må sette statistikknavn (statistics_name)")
  else if data_location.isNone then
    .error (.assertionError "Mangler filsti til datasett (data_location)")
  else if data_period.isNone then
    .error (.assertionError "Må definere hvilken periode dataene gjelder for (data_period)")
  else
    -- control_errors = flatten([error_list]) = error_list
    let control_errors := errors
    let quality_results := Kontrolltype.all.filter
      (fun i => control_errors.any (fun e => e.result_type = i))
    -- `if not any(quality_results)`: enum members are truthy, so this
    -- tests emptiness; the appended `Kontrolltype.OK` does not exist.
    if quality_results.isEmpty then
      .error (.attributeError "OK is not a member of Kontrolltype")
    else
      -- Kvalitetsrapport(..., corrections=corrections_list)
      .error (.typeError "Kvalitetsrapport got an unexpected keyword argument corrections")

/-! ## The accuracy indicator `beregn_treffsikkerhet`
(kvalitetsindikatorer.py lines 798-832)

The loop walks the `kontrolldokumentasjon` keys of the report dict in
order, accumulating the running totals exactly as the Python code does.
The fields actually read from the dict are typed here: per control its
`Kontrollutslag` count, and per error dict its `kontrollnavn`,
`observasjon_id` and `relevante_variabler`. -/

/-- The fields of one `kontrollutslag` entry that the indicator reads. -/
structure FeilDict where
  kontrollnavn : String
  observasjon_id : String
  relevante_variabler : List String

/-- Python `celler_markert` for control `i`: one `(observasjon_id, variable)`
pair per relevant variable of each error of that control
(kvalitetsindikatorer.py lines 818-823). -/
def cellerMarkert (utslag : List FeilDict) (i : String) : List (String × String) :=
  (utslag.filter (fun x => x.kontrollnavn = i)).flatMap
    (fun x => x.relevante_variabler.map (fun v => (x.observasjon_id, v)))

/-- Python `celler_markert_editert`: how many entries of the edit list occur
among the marked cells of control `i` (line 824). -/
def cellerMarkertEditert (utslag : List FeilDict) (edits : List (String × String))
    (i : String) : Nat :=
  (edits.filter (fun x => (cellerMarkert utslag i).contains x)).length

/-- The loop body of `beregn_treffsikkerhet`, carrying
`total_kontrollutslag` and `total_celler_markert_editert`. -/
def treffsikkerhetLoop (utslag : List FeilDict) (edits : List (String × String)) :
    List (String × Nat) → Nat → Nat → List (String × ℚ) × Nat × Nat
  | [], totKu, totEd => ([], totKu, totEd)
  | (i, ku) :: rest, totKu, totEd =>
      let ed := cellerMarkertEditert utslag edits i
      let (tail, tk, te) := treffsikkerhetLoop utslag edits rest (totKu + ku) (totEd + ed)
      ((i, (ed : ℚ) / (ku : ℚ) * 100) :: tail, tk, te)

/-- Method `beregn_treffsikkerhet`: per-control accuracies followed by the
`"total"` entry.  `dok` is the list of (control name, `Kontrollutslag`)
pairs of the report's `kontrolldokumentasjon`, in dict order.  Division
is exact rational division (Python uses float `/`, raising
`ZeroDivisionError` on a zero denominator; `ℚ` yields 0 there). -/
def beregn_treffsikkerhet (dok : List (String × Nat)) (utslag : List FeilDict)
    (edits : List (String × String)) : List (String × ℚ) :=
  let (entries, totKu, totEd) := treffsikkerhetLoop utslag edits dok 0 0
  entries ++ [("total", (totEd : ℚ) / (totKu : ℚ) * 100)]

/-! ## Object-identity model of one wrapper invocation

The frame-mutation claim (C10) is about aliasing: `data = data.copy()`
on line 109 makes every later operation act on a fresh object, so the
caller's dataframe is untouched.  Here dataframes live in a store of
heap cells; the caller passes a cell index, the copy allocates a fresh
cell, and every later frame update (in particular the in-place
`data["utslag"] = False`) writes that fresh cell. -/

/-- The heap of dataframe objects.  Allocation appends. -/
abbrev Store := List DataFrame

/-- Dereference a cell (meaningful only for allocated indices). -/
def Store.read (s : Store) (p : Nat) : DataFrame := s.getD p ⟨[], []⟩

/-- One wrapper invocation at the object level: the caller's frame is
cell `p`; the result is the final store and the returned frame value.
Each pipeline stage updates the copy's cell `q`, mirroring that the
Python locals all refer to the copy or to frames derived from it. -/
def kontrollRunSt (cfg : KontrollConfig) (f : DataFrame → DataFrame)
    (st : Store) (p : Nat) : Store × Option DataFrame :=
  match st[p]? with
  | none => (st, none)
  | some caller =>
      let q := st.length
      -- data = data.copy()
      let s1 := st ++ [caller]
      -- drop a pre-existing utslag column
      let s2 := s1.set q (dataAfterDrop (Store.read s1 q))
      -- data = filter_for_relevant_data(data)
      let s3 := match cfg.filter_for_relevant_data with
        | some fl => s2.set q (fl (Store.read s2 q))
        | none => s2
      -- data["utslag"] = False (in-place mutation of the copy)
      let s4 := s3.set q ((Store.read s3 q).setColumnConst "utslag" (.bool false))
      -- filtered_data = control_function(data): a fresh value, feeding
      -- only the error rows; it is not written to the caller's cell.
      let _ := f (Store.read s4 q)
      -- data = data.drop(columns=["utslag"])
      let s5 := s4.set q ((Store.read s4 q).dropColumn "utslag")
      (s5, some (Store.read s5 q))

/-! ## Spec-side definition for the accuracy claim

The claim describes the accuracy as the fraction of flagged cells that
coincide with the edit list; this definition follows those words, to be
compared with `beregn_treffsikkerhet` as embedded from the code. -/

/-- The accuracy the claim describes for one control: edited flagged
cells over all flagged cells, as a percentage. -/
def claimedCellAccuracy (utslag : List FeilDict) (edits : List (String × String))
    (i : String) : ℚ :=
  ((((cellerMarkert utslag i).filter (fun c => edits.contains c)).length : ℚ) /
    ((cellerMarkert utslag i).length : ℚ)) * 100

/-- The per-control and total accuracies the claim describes. -/
def claimedTreffsikkerhet (dok : List (String × Nat)) (utslag : List FeilDict)
    (edits : List (String × String)) : List (String × ℚ) :=
  dok.map (fun p => (p.1, claimedCellAccuracy utslag edits p.1)) ++
    [("total",
      (((dok.map (fun p => ((cellerMarkert utslag p.1).filter
          (fun c => edits.contains c)).length)).sum : ℚ) /
        ((dok.map (fun p => (cellerMarkert utslag p.1).length)).sum : ℚ)) * 100)]

/-! ## Concrete instances used by counterexamples and witnesses -/

/-- A control flagging ages above 100 (the spec's §8 scenario). -/
def checkAlder : DataFrame → DataFrame := fun df =>
  { df with rows := df.rows.map (fun r =>
      match Row.get r "Alder" with
      | some (.int n) => if n > 100 then Row.set r "utslag" (.bool true) else r
      | _ => r) }

/-- Decorator configuration for `checkAlder`, with no row filter. -/
def cfgAlder : KontrollConfig :=
  { result_type := .MULIG_FEIL,
    error_description := "Alder er over 100",
    id_column := "ident",
    filter_for_relevant_data := none,
    important_variables := some ["Alder"],
    control_name := "alder_over_100",
    docstring := none }

/-- Two observations, one with an age above 100. -/
def dfAlder : DataFrame :=
  { cols := ["ident", "Alder"],
    rows := [[("ident", .int 1), ("Alder", .int 120)],
             [("ident", .int 2), ("Alder", .int 90)]] }

/-- Frame `dfAlder` with a stale flag column from a prior run. -/
def dfAlderStale : DataFrame :=
  { cols := ["ident", "Alder", "utslag"],
    rows := [[("ident", .int 1), ("Alder", .int 120), ("utslag", .bool true)],
             [("ident", .int 2), ("Alder", .int 90), ("utslag", .bool false)]] }

/-- A check that flags nothing. -/
def checkNone : DataFrame → DataFrame := id

/-- A row filter that duplicates every row (more rows out than in). -/
def dupFilter : DataFrame → DataFrame := fun df => { df with rows := df.rows ++ df.rows }

/-- Decorator configuration whose filter duplicates rows. -/
def cfgDup : KontrollConfig :=
  { result_type := .MISSING,
    error_description := "mangler verdi",
    id_column := "ident",
    filter_for_relevant_data := some dupFilter,
    important_variables := none,
    control_name := "mangler_verdi",
    docstring := none }

/-- One observation, for the duplicating-filter run. -/
def dfOne : DataFrame :=
  { cols := ["ident"], rows := [[("ident", .str "1")]] }

/-- A row filter keeping only the first row. -/
def takeOneFilter : DataFrame → DataFrame := fun df => { df with rows := df.rows.take 1 }

/-- Decorator configuration whose filter drops rows. -/
def cfgTakeOne : KontrollConfig :=
  { result_type := .ABSOLUTT_FEIL,
    error_description := "negativ verdi",
    id_column := "ident",
    filter_for_relevant_data := some takeOneFilter,
    important_variables := none,
    control_name := "negativ_verdi",
    docstring := none }

/-- Two observations, for the row-dropping-filter run. -/
def dfTwo : DataFrame :=
  { cols := ["ident"],
    rows := [[("ident", .str "1")], [("ident", .str "2")]] }

/-- A report whose own documentation is `None` (Python default). -/
def rapportNoDok : Kvalitetsrapport :=
  { statistics_name := "teststat",
    quality_control_id := "A reference (or link/uri) to the quality control description",
    data_location := ["gs://bucket/data.parquet"],
    data_period := "2024",
    quality_control_datetime := ⟨"2024-01-02T03:04:05"⟩,
    quality_control_results := [.MULIG_FEIL],
    quality_control_errors :=
      [{ sub_control_id := "alder_over_100",
         result_type := .MULIG_FEIL,
         context_id := .int 1,
         error_description := some "Alder er over 100",
         important_variables := some ["Alder"] }],
    quality_control_documentation := none }

/-- The same report carrying its own documentation dict. -/
def rapportMedDok : Kvalitetsrapport :=
  { rapportNoDok with
    quality_control_documentation :=
      some (.obj [("alder_over_100", .obj [("Kontrollutslag", .int 1)])]) }

/-- The full output of running the age check on `dfAlder` from empty
global state. -/
def outAlder : KontrollOutput :=
  { frame := returnedData cfgAlder dfAlder,
    errors := [mkFeilrapport cfgAlder (.int 1)],
    dok := [("alder_over_100", kontrollDokEntry cfgAlder checkAlder dfAlder)] }

/-- Documentation counts for the accuracy counterexample: one control
with one flagged row. -/
def dokAcc : List (String × Nat) := [("alder_over_100", 1)]

/-- One error with two relevant variables: two flagged cells from one
flagged row. -/
def utslagAcc : List FeilDict :=
  [{ kontrollnavn := "alder_over_100",
     observasjon_id := "1",
     relevante_variabler := ["Alder", "Inntekt"] }]

/-- One of those two cells was actually edited. -/
def editsAcc : List (String × String) := [("1", "Alder")]

/-! # Theorems -/

/-! ## Shared helper lemmas -/

theorem mapM_option_eq_map {α β : Type} (g : α → Option β) (gv : α → β) :
    ∀ l : List α, (∀ a ∈ l, g a = some (gv a)) → l.mapM g = some (l.map gv) := by
  intro l h
  induction l with
  | nil => rfl
  | cons a t ih =>
      rw [List.mapM_cons, h a (by simp), ih (fun a ha => h a (by simp [ha]))]
      rfl

theorem mapM_except_eq_map {ε α β : Type} (g : α → Except ε β) (gv : α → β) :
    ∀ l : List α, (∀ a ∈ l, g a = .ok (gv a)) → l.mapM g = .ok (l.map gv) := by
  intro l h
  induction l with
  | nil => rfl
  | cons a t ih =>
      rw [List.mapM_cons, h a (by simp), ih (fun a ha => h a (by simp [ha]))]
      rfl

theorem DokMap.get_append_self (m : DokMap) (k : String) (v : DokEntry)
    (h : ∀ p ∈ m, p.1 ≠ k) : DokMap.get (m ++ [(k, v)]) k = some v := by
  induction m with
  | nil => simp [DokMap.get]
  | cons p t ih =>
      have hp : p.1 ≠ k := h p (by simp)
      simpa [DokMap.get, hp] using ih (fun q hq => h q (by simp [hq]))

theorem DokMap.get_map_overwrite (m : DokMap) (k : String) (v : DokEntry)
    (h : ∃ p ∈ m, p.1 = k) :
    DokMap.get (m.map (fun p => if p.1 = k then (k, v) else p)) k = some v := by
  induction m with
  | nil => simp at h
  | cons p t ih =>
      by_cases hp : p.1 = k
      · rw [List.map_cons, if_pos hp]
        simp [DokMap.get]
      · rw [List.map_cons, if_neg hp]
        have ht : ∃ q ∈ t, q.1 = k := by
          rcases h with ⟨q, hq, hqk⟩
          rcases List.mem_cons.mp hq with rfl | hq'
          · exact absurd hqk hp
          · exact ⟨q, hq', hqk⟩
        simpa [DokMap.get, hp] using ih ht

theorem DokMap.get_set (m : DokMap) (k : String) (v : DokEntry) :
    DokMap.get (DokMap.set m k v) k = some v := by
  unfold DokMap.set
  split
  case isTrue h =>
    exact DokMap.get_map_overwrite m k v (by simpa using h)
  case isFalse h =>
    refine DokMap.get_append_self m k v ?_
    intro p hp
    simp only [List.any_eq_true, decide_eq_true_eq] at h
    exact fun hk => h ⟨p, hp, hk⟩

theorem setColumnConst_length (df : DataFrame) (c : String) (v : JVal) :
    (df.setColumnConst c v).rows.length = df.rows.length := by
  simp [DataFrame.setColumnConst]

theorem Kontrolltype.ofName_name (k : Kontrolltype) :
    Kontrolltype.ofName k.name = some k := by
  cases k <;> rfl

/-! ## C1: `lag_kvalitetsrapport` never returns a report -/

/-- C1 (code bug): for every non-null statistics name, data location and
data period, every flag value and every accumulated error state,
`lag_kvalitetsrapport` raises — an `AttributeError` from the nonexistent
`Kontrolltype.OK` when no result type occurs in the errors, and
otherwise a `TypeError` from the `corrections=` keyword that
`Kvalitetsrapport.__init__` does not accept.  It never returns the
report (or pair) that the claim and the docstring promise. -/
theorem C1_lag_kvalitetsrapport_always_raises (sn dl dp : String) (b : Bool)
    (errors : List Feilrapport) :
    ∃ e, lag_kvalitetsrapport (some sn) (some dl) (some dp) b errors = .error e ∧
      (e = .attributeError "OK is not a member of Kontrolltype" ∨
       e = .typeError "Kvalitetsrapport got an unexpected keyword argument corrections") := by
  unfold lag_kvalitetsrapport
  simp only [Option.isNone_some, Bool.false_eq_true, if_false]
  split
  · exact ⟨_, rfl, Or.inl rfl⟩
  · exact ⟨_, rfl, Or.inr rfl⟩

/-! ## C7: missing required report fields raise Norwegian asserts -/

/-- C7: calling `lag_kvalitetsrapport` with any of `statistics_name`,
`data_location` or `data_period` equal to `None` raises an assertion
failure carrying one of the three Norwegian messages, and no report is
produced. -/
theorem C7_lag_kvalitetsrapport_assert_none (sn dl dp : Option String) (b : Bool)
    (errors : List Feilrapport)
    (h : sn = none ∨ dl = none ∨ dp = none) :
    ∃ msg, lag_kvalitetsrapport sn dl dp b errors = .error (.assertionError msg) ∧
      msg ∈ ["Må sette statistikknavn (statistics_name)",
             "Mangler filsti til datasett (data_location)",
             "Må definere hvilken periode dataene gjelder for (data_period)"] := by
  rcases sn with _ | s
  · exact ⟨"Må sette statistikknavn (statistics_name)", rfl, by simp⟩
  · rcases dl with _ | l
    · exact ⟨"Mangler filsti til datasett (data_location)", rfl, by simp⟩
    · rcases dp with _ | p
      · exact ⟨"Må definere hvilken periode dataene gjelder for (data_period)", rfl, by simp⟩
      · simp at h

/-- Witness for C7 at `data_location=None`. -/
theorem C7_witness :
    ∃ msg, lag_kvalitetsrapport (some "teststat") none (some "2024") false [] =
        .error (.assertionError msg) ∧
      msg ∈ ["Må sette statistikknavn (statistics_name)",
             "Mangler filsti til datasett (data_location)",
             "Må definere hvilken periode dataene gjelder for (data_period)"] :=
  C7_lag_kvalitetsrapport_assert_none (some "teststat") none (some "2024") false []
    (Or.inr (Or.inl rfl))

/-! ## C9: the shape of `to_dict` output -/

/-- C9: `to_dict` yields exactly the eight top-level keys in order
(`statistikknavn`, `quality_control_id`, `data_plassering`,
`data_periode`, the report-creation timestamp key, `typer_kontrollutslag`,
`kontrollutslag`, `kontrolldokumentasjon`); `data_plassering` is a list,
`typer_kontrollutslag` is the list of enum member names, `kontrollutslag`
is the list of per-error dicts each with the five fixed Norwegian keys,
and `kontrolldokumentasjon` carries the documentation mapping from
control name to summary dict — the report's own when present, otherwise
the global `kontroll_dokumentasjon` dict. -/
theorem C9_to_dict_shape (r : Kvalitetsrapport) (gdok : JVal) :
    (r.to_dict gdok).map Prod.fst =
      ["statistikknavn", "quality_control_id", "data_plassering", "data_periode",
       "kvalitetsrapport opprettet", "typer_kontrollutslag", "kontrollutslag",
       "kontrolldokumentasjon"] ∧
    dictGet (r.to_dict gdok) "data_plassering" =
      some (.arr (r.data_location.map .str)) ∧
    dictGet (r.to_dict gdok) "typer_kontrollutslag" =
      some (.arr (r.quality_control_results.map (fun k => .str k.name))) ∧
    dictGet (r.to_dict gdok) "kontrollutslag" =
      some (.arr (r.quality_control_errors.map (fun e => .obj e.to_dict))) ∧
    dictGet (r.to_dict gdok) "kontrolldokumentasjon" =
      some (match r.quality_control_documentation with
            | some d => d
            | none => gdok) ∧
    ∀ e : Feilrapport, (Feilrapport.to_dict e).map Prod.fst =
      ["kontrollnavn", "kontrolltype", "observasjon_id", "feilbeskrivelse",
       "relevante_variabler"] :=
  ⟨rfl, rfl, rfl, rfl, rfl, fun _ => rfl⟩

/-! ## C3: one error report per flagged row -/

/-- C3: a run of a `kontroll`-decorated check on data whose flagged rows
carry the configured id column appends exactly one `Feilrapport` per
flagged row of the check's output — `context_id` is that row's id-column
cell, and the result type, description and important variables are the
decorator's configuration — and the error list is otherwise unchanged
(old entries kept in order, nothing else added). -/
theorem C3_flagged_rows_yield_errors (cfg : KontrollConfig) (f : DataFrame → DataFrame)
    (el : List Feilrapport) (dok : DokMap) (data : DataFrame) (idv : Row → JVal)
    (h : ∀ r ∈ errorRows cfg f data, Row.get r cfg.id_column = some (idv r)) :
    kontrollRun cfg f el dok data = .ok
      { frame := returnedData cfg data,
        errors := el ++ (errorRows cfg f data).map (fun r =>
          { sub_control_id := cfg.control_name,
            result_type := cfg.result_type,
            context_id := idv r,
            error_description := some cfg.error_description,
            important_variables := cfg.important_variables }),
        dok := DokMap.set dok cfg.control_name (kontrollDokEntry cfg f data) } := by
  unfold kontrollRun
  rw [mapM_option_eq_map _ idv _ h]
  simp [mkFeilrapport]

/-- Witness for C3: the age check on two rows flags exactly the row with
age 120 and appends its single error report. -/
theorem C3_witness :
    kontrollRun cfgAlder checkAlder [] [] dfAlder = .ok
      { frame := returnedData cfgAlder dfAlder,
        errors := [] ++ (errorRows cfgAlder checkAlder dfAlder).map (fun _ =>
          { sub_control_id := cfgAlder.control_name,
            result_type := cfgAlder.result_type,
            context_id := .int 1,
            error_description := some cfgAlder.error_description,
            important_variables := cfgAlder.important_variables }),
        dok := DokMap.set [] cfgAlder.control_name
          (kontrollDokEntry cfgAlder checkAlder dfAlder) } :=
  C3_flagged_rows_yield_errors cfgAlder checkAlder [] [] dfAlder (fun _ => .int 1)
    (by
      intro r hr
      rw [show errorRows cfgAlder checkAlder dfAlder =
            [[("ident", JVal.int 1), ("Alder", JVal.int 120),
              ("utslag", JVal.bool true)]] from rfl] at hr
      simp only [List.mem_singleton] at hr
      subst hr
      rfl)

/-! ## C6: a stale flag column is dropped before recomputing -/

/-- The whole wrapper result depends on the input frame only through the
initial flag-column drop. -/
theorem kontrollRun_congr_afterDrop (cfg : KontrollConfig) (f : DataFrame → DataFrame)
    (el : List Feilrapport) (dok : DokMap) (d1 d2 : DataFrame)
    (h : dataAfterDrop d1 = dataAfterDrop d2) :
    kontrollRun cfg f el dok d1 = kontrollRun cfg f el dok d2 := by
  simp only [kontrollRun, errorRows, filteredData, checkedData, dataAfterFilter,
    returnedData, kontrollDokEntry, totalData, h]

/-- C6: re-running a decorated check on a frame that still carries the
`utslag` column of a prior run gives the same appended errors, the same
documentation entry and the same returned frame as running on the same
data without that column. -/
theorem C6_stale_flag_rerun (cfg : KontrollConfig) (f : DataFrame → DataFrame)
    (el : List Feilrapport) (dok : DokMap) (data : DataFrame)
    (h : "utslag" ∈ data.cols) :
    kontrollRun cfg f el dok data =
      kontrollRun cfg f el dok (data.dropColumn "utslag") := by
  apply kontrollRun_congr_afterDrop
  have h2 : "utslag" ∉ (data.dropColumn "utslag").cols := by
    simp [DataFrame.dropColumn]
  rw [show dataAfterDrop data = data.dropColumn "utslag" by simp [dataAfterDrop, h],
    show dataAfterDrop (data.dropColumn "utslag") = data.dropColumn "utslag" by
      simp [dataAfterDrop, h2]]

/-- Witness for C6 on the age data with a stale flag column. -/
theorem C6_witness :
    kontrollRun cfgAlder checkAlder [] [] dfAlderStale =
      kontrollRun cfgAlder checkAlder [] [] (dfAlderStale.dropColumn "utslag") :=
  C6_stale_flag_rerun cfgAlder checkAlder [] [] dfAlderStale (by simp [dfAlderStale])

/-! ## C10: the caller's dataframe object is never mutated -/

theorem store_read_concat (s : Store) (v : DataFrame) :
    Store.read (s ++ [v]) s.length = v := by
  simp [Store.read, List.getD_eq_getElem?_getD]

theorem store_read_set (s : Store) (q : Nat) (v : DataFrame) (h : q < s.length) :
    Store.read (s.set q v) q = v := by
  simp [Store.read, List.getD_eq_getElem?_getD, List.getElem?_set_self h]

/-- C10: invoking the wrapper on the frame stored in cell `p` leaves
cell `p` exactly as it was — the wrapper operates on the freshly
allocated copy — and hands back the copy's final pipeline value. -/
theorem C10_caller_frame_unchanged (cfg : KontrollConfig) (f : DataFrame → DataFrame)
    (st : Store) (p : Nat) (c : DataFrame) (hc : st[p]? = some c) (h : p < st.length) :
    ((kontrollRunSt cfg f st p).1)[p]? = some c ∧
    (kontrollRunSt cfg f st p).2 = some (returnedData cfg c) := by
  have hq : st.length ≠ p := Ne.symm (Nat.ne_of_lt h)
  have hlt : st.length < (st ++ [c]).length := by simp
  unfold kontrollRunSt
  rw [hc]
  cases hf : cfg.filter_for_relevant_data with
  | none =>
      refine ⟨?_, ?_⟩
      · rw [List.getElem?_set_ne hq, List.getElem?_set_ne hq, List.getElem?_set_ne hq,
          List.getElem?_append_left h, hc]
      · simp [store_read_concat, store_read_set, returnedData, checkedData,
          dataAfterFilter, hf]
  | some fl =>
      refine ⟨?_, ?_⟩
      · rw [List.getElem?_set_ne hq, List.getElem?_set_ne hq, List.getElem?_set_ne hq,
          List.getElem?_set_ne hq, List.getElem?_append_left h, hc]
      · simp [store_read_concat, store_read_set, returnedData, checkedData,
          dataAfterFilter, hf]

/-- Witness for C10: a one-cell store holding the age data. -/
theorem C10_witness :
    ((kontrollRunSt cfgAlder checkAlder [dfAlder] 0).1)[0]? = some dfAlder ∧
    (kontrollRunSt cfgAlder checkAlder [dfAlder] 0).2 =
      some (returnedData cfgAlder dfAlder) :=
  C10_caller_frame_unchanged cfgAlder checkAlder [dfAlder] 0 dfAlder rfl
    (by decide)

/-! ## C4: documentation count inequalities -/

/-- The `.ok` output of a run is the pipeline's frame, appended errors
and overwritten documentation entry. -/
theorem kontrollRun_ok_inv (cfg : KontrollConfig) (f : DataFrame → DataFrame)
    (el : List Feilrapport) (dok : DokMap) (data : DataFrame) (out : KontrollOutput)
    (hrun : kontrollRun cfg f el dok data = .ok out) :
    out.frame = returnedData cfg data ∧
    out.dok = DokMap.set dok cfg.control_name (kontrollDokEntry cfg f data) := by
  unfold kontrollRun at hrun
  cases hm : (errorRows cfg f data).mapM (fun r => Row.get r cfg.id_column) with
  | none => rw [hm] at hrun; cases hrun
  | some ids =>
      rw [hm] at hrun
      injection hrun with h'
      rw [← h']
      exact ⟨rfl, rfl⟩

/-- C4 counterexample: a run whose configured filter duplicates rows
records `Enheter kontrollert = 2` but `Enheter i datasettet = 1`, so the
claimed chain `Kontrollutslag ≤ Enheter kontrollert ≤ Enheter i
datasettet` fails on the recorded entry. -/
theorem C4_counterexample :
    kontrollRun cfgDup checkNone [] [] dfOne = .ok
      { frame := returnedData cfgDup dfOne,
        errors := [],
        dok := [("mangler_verdi", kontrollDokEntry cfgDup checkNone dfOne)] } ∧
    (kontrollDokEntry cfgDup checkNone dfOne).kontrollutslag = 0 ∧
    (kontrollDokEntry cfgDup checkNone dfOne).enheter_kontrollert = 2 ∧
    (kontrollDokEntry cfgDup checkNone dfOne).enheter_i_datasettet = 1 ∧
    ¬ ((kontrollDokEntry cfgDup checkNone dfOne).enheter_kontrollert ≤
        (kontrollDokEntry cfgDup checkNone dfOne).enheter_i_datasettet) :=
  ⟨rfl, rfl, rfl, rfl, by decide⟩

/-- C4 (amended): after every successful run whose filter does not
increase the row count and whose check returns no more rows than it was
given, the recorded documentation entry satisfies `Kontrollutslag ≤
Enheter kontrollert ≤ Enheter i datasettet`; when no filter is
configured, `Enheter kontrollert = Enheter i datasettet`. -/
theorem C4_dok_count_invariant (cfg : KontrollConfig) (f : DataFrame → DataFrame)
    (el : List Feilrapport) (dok : DokMap) (data : DataFrame) (out : KontrollOutput)
    (hrun : kontrollRun cfg f el dok data = .ok out)
    (hfil : (dataAfterFilter cfg data).rows.length ≤ (dataAfterDrop data).rows.length)
    (hctl : (filteredData cfg f data).rows.length ≤ (checkedData cfg data).rows.length) :
    ∃ e, DokMap.get out.dok cfg.control_name = some e ∧
      e.kontrollutslag ≤ e.enheter_kontrollert ∧
      e.enheter_kontrollert ≤ e.enheter_i_datasettet ∧
      (cfg.filter_for_relevant_data = none →
        e.enheter_kontrollert = e.enheter_i_datasettet) := by
  have hdok := (kontrollRun_ok_inv cfg f el dok data out hrun).2
  have hlen : (checkedData cfg data).rows.length = (dataAfterFilter cfg data).rows.length :=
    setColumnConst_length _ _ _
  refine ⟨kontrollDokEntry cfg f data, by rw [hdok]; exact DokMap.get_set _ _ _, ?_, ?_, ?_⟩
  · exact le_trans (List.length_filter_le _ _) hctl
  · show (checkedData cfg data).rows.length ≤ _
    cases hf : cfg.filter_for_relevant_data with
    | none => simp [kontrollDokEntry, totalData, hf]
    | some fl =>
        simp only [kontrollDokEntry, totalData, hf]
        by_cases h0 : (dataAfterDrop data).rows.length = 0
        · simp [h0]
        · simp only [h0, if_false]
          exact le_trans (le_of_eq hlen) hfil
  · intro hf
    simp [kontrollDokEntry, totalData, hf]

/-- Witness for the amended C4 at the unfiltered age check. -/
theorem C4_witness :
    ∃ e, DokMap.get outAlder.dok cfgAlder.control_name = some e ∧
      e.kontrollutslag ≤ e.enheter_kontrollert ∧
      e.enheter_kontrollert ≤ e.enheter_i_datasettet ∧
      (cfgAlder.filter_for_relevant_data = none →
        e.enheter_kontrollert = e.enheter_i_datasettet) :=
  C4_dok_count_invariant cfgAlder checkAlder [] [] dfAlder outAlder rfl
    (by decide) (by decide)

/-! ## C5: what frame the wrapper returns -/

/-- C5 counterexample: with a row-dropping filter configured, the
returned frame has one row while the input had two, so the claim that
the returned frame keeps the input's rows fails. -/
theorem C5_counterexample :
    kontrollRun cfgTakeOne checkNone [] [] dfTwo = .ok
      { frame := returnedData cfgTakeOne dfTwo,
        errors := [],
        dok := [("negativ_verdi", kontrollDokEntry cfgTakeOne checkNone dfTwo)] } ∧
    (returnedData cfgTakeOne dfTwo).rows.length = 1 ∧
    dfTwo.rows.length = 2 ∧
    (returnedData cfgTakeOne dfTwo).rows.length ≠ dfTwo.rows.length :=
  ⟨rfl, rfl, rfl, by decide⟩

theorem Row.set_of_forall_ne (r : Row) (c : String) (v : JVal)
    (h : ∀ p ∈ r, p.1 ≠ c) : Row.set r c v = r ++ [(c, v)] := by
  induction r with
  | nil => rfl
  | cons p t ih =>
      have hp : p.1 ≠ c := h p (by simp)
      simp [Row.set, hp, ih (fun q hq => h q (by simp [hq]))]

theorem Row.drop_set_cancel (r : Row) (c : String) (v : JVal)
    (h : ∀ p ∈ r, p.1 ≠ c) : Row.drop (Row.set r c v) c = r := by
  rw [Row.set_of_forall_ne r c v h]
  unfold Row.drop
  rw [List.filter_append]
  have h1 : r.filter (fun p => decide (p.1 ≠ c)) = r :=
    List.filter_eq_self.mpr (fun p hp => by simpa using h p hp)
  have h2 : ([(c, v)].filter (fun p => decide (p.1 ≠ c))) = [] := by simp
  rw [h1, h2, List.append_nil]

/-- Adding a fresh flag column and dropping it again is the identity on
frames that carry no flag column. -/
theorem setColumnConst_dropColumn_cancel (data : DataFrame) (v : JVal)
    (hcol : "utslag" ∉ data.cols)
    (hrow : ∀ r ∈ data.rows, ∀ p ∈ r, p.1 ≠ "utslag") :
    (data.setColumnConst "utslag" v).dropColumn "utslag" = data := by
  obtain ⟨cols, rows⟩ := data
  simp only [DataFrame.setColumnConst, DataFrame.dropColumn]
  rw [if_neg hcol]
  refine congrArg₂ DataFrame.mk ?_ ?_
  · rw [List.filter_append]
    have h1 : cols.filter (fun c' => decide (c' ≠ "utslag")) = cols :=
      List.filter_eq_self.mpr (fun c hc => by
        simp only [decide_eq_true_eq]
        intro hceq
        exact hcol (hceq ▸ hc))
    have h2 : (["utslag"].filter (fun c' => decide (c' ≠ "utslag"))) = [] := by simp
    rw [h1, h2, List.append_nil]
  · rw [List.map_map]
    have hmap : rows.map (fun r => Row.drop (Row.set r "utslag" v) "utslag") =
        rows.map id :=
      List.map_congr_left (fun r hr => Row.drop_set_cancel r "utslag" v (hrow r hr))
    simpa using hmap

/-- C5 (amended): the wrapper returns the data *after the configured
filter* with the flag column removed; in particular when no filter is
configured and the input carries no flag column, the returned frame is
exactly the input — same rows, columns and values. -/
theorem C5_returns_input_when_unfiltered (cfg : KontrollConfig)
    (f : DataFrame → DataFrame) (el : List Feilrapport) (dok : DokMap)
    (data : DataFrame) (out : KontrollOutput)
    (hrun : kontrollRun cfg f el dok data = .ok out)
    (hnof : cfg.filter_for_relevant_data = none)
    (hcol : "utslag" ∉ data.cols)
    (hrow : ∀ r ∈ data.rows, ∀ p ∈ r, p.1 ≠ "utslag") :
    out.frame = data := by
  have hframe := (kontrollRun_ok_inv cfg f el dok data out hrun).1
  rw [hframe]
  unfold returnedData checkedData dataAfterFilter
  rw [hnof]
  rw [show dataAfterDrop data = data from by simp [dataAfterDrop, hcol]]
  exact setColumnConst_dropColumn_cancel data _ hcol hrow

/-- Witness for the amended C5: the unfiltered age check hands the input
frame back unchanged. -/
theorem C5_witness : outAlder.frame = dfAlder :=
  C5_returns_input_when_unfiltered cfgAlder checkAlder [] [] dfAlder outAlder rfl
    rfl (by decide) (by decide)

/-! ## C2: the `to_dict`/`from_dict` round trip -/

theorem mapM_decodeStr (l : List String) :
    List.mapM decodeStr (l.map JVal.str) = Except.ok l := by
  induction l with
  | nil => rfl
  | cons a t ih =>
      rw [List.map_cons, List.mapM_cons, show decodeStr (.str a) = .ok a from rfl, ih]
      rfl

theorem decodeKontrolltype_name (k : Kontrolltype) :
    decodeKontrolltype (.str k.name) = .ok k := by
  cases k <;> rfl

theorem mapM_decodeKontrolltype (l : List Kontrolltype) :
    List.mapM decodeKontrolltype (l.map (fun k => JVal.str k.name)) = Except.ok l := by
  induction l with
  | nil => rfl
  | cons a t ih =>
      rw [List.map_cons, List.mapM_cons, decodeKontrolltype_name, ih]
      rfl

theorem decodeOptStr_optStr (o : Option String) :
    decodeOptStr (some (optStr o)) = .ok o := by
  cases o <;> rfl

theorem decodeOptStrList_optStrList (o : Option (List String)) :
    decodeOptStrList (some (optStrList o)) = .ok o := by
  cases o with
  | none => rfl
  | some l =>
      have h := mapM_decodeStr l
      simp only [optStrList, decodeOptStrList, h]

theorem decodeFeilrapport_to_dict (e : Feilrapport) :
    decodeFeilrapport (.obj e.to_dict) = .ok e := by
  obtain ⟨sub, typ, ctx, desc, iv⟩ := e
  simp [decodeFeilrapport, Feilrapport.to_dict, getStr, dictGet,
    decodeKontrolltype_name, decodeOptStr_optStr, decodeOptStrList_optStrList]

theorem mapM_decodeFeilrapport (l : List Feilrapport) :
    List.mapM decodeFeilrapport (l.map (fun e => JVal.obj e.to_dict)) = Except.ok l := by
  induction l with
  | nil => rfl
  | cons a t ih =>
      rw [List.map_cons, List.mapM_cons, decodeFeilrapport_to_dict, ih]
      rfl

theorem decodeDok_of_ne_null (d : JVal) (h : d ≠ JVal.null) : decodeDok d = some d := by
  cases d
  · exact absurd rfl h
  all_goals rfl

/-- C2 counterexample: a report whose own documentation is `None`
does not round-trip to an equal object — `to_dict` writes the global
documentation dict in its place, and `from_dict` stores that dict, so
the reconstructed report's documentation is the global mapping instead
of `None`. -/
theorem C2_counterexample :
    Kvalitetsrapport.from_dict (rapportNoDok.to_dict (JVal.obj [])) =
      .ok { rapportNoDok with quality_control_documentation := some (JVal.obj []) } ∧
    rapportNoDok.quality_control_documentation = none ∧
    some (JVal.obj []) ≠ rapportNoDok.quality_control_documentation := by
  refine ⟨rfl, rfl, ?_⟩
  rw [show rapportNoDok.quality_control_documentation = none from rfl]
  simp

/-- C2 (amended): for every report whose documentation field holds an
actual dict (not `None`, and not the JSON-unrepresentable null value),
`from_dict (to_dict report)` reconstructs an equal object: same
statistics name, id, data locations, period, timestamp, result-type
list, field-wise equal error list, and the same documentation mapping.
Reports with documentation `None` get the serialized global mapping
instead (see the counterexample). -/
theorem C2_roundtrip_with_dok (r : Kvalitetsrapport) (gdok : JVal) (d : JVal)
    (hdoc : r.quality_control_documentation = some d) (hnull : d ≠ JVal.null) :
    Kvalitetsrapport.from_dict (r.to_dict gdok) = .ok r := by
  obtain ⟨sn, qid, dl, dp, ts, res, errs, doc⟩ := r
  have hdoc' : doc = some d := hdoc
  subst hdoc'
  simp [Kvalitetsrapport.to_dict, Kvalitetsrapport.from_dict, getStr, getArr,
    getArrMapM, dictGet, decodeDok_of_ne_null d hnull,
    PyDatetime.fromisoformat, PyDatetime.isoformat]
  rw [show List.mapM.loop decodeStr (List.map JVal.str dl) [] = Except.ok dl from
      mapM_decodeStr dl,
    show List.mapM.loop decodeKontrolltype
        (List.map (fun k => JVal.str k.name) res) [] = Except.ok res from
      mapM_decodeKontrolltype res,
    show List.mapM.loop decodeFeilrapport
        (List.map (fun e => JVal.obj e.to_dict) errs) [] = Except.ok errs from
      mapM_decodeFeilrapport errs]

/-- Witness for the amended C2: the example report with its own
documentation dict round-trips exactly. -/
theorem C2_witness :
    Kvalitetsrapport.from_dict (rapportMedDok.to_dict (JVal.obj [])) =
      .ok rapportMedDok :=
  C2_roundtrip_with_dok rapportMedDok (JVal.obj [])
    (JVal.obj [("alder_over_100", .obj [("Kontrollutslag", .int 1)])]) rfl (by simp)

/-! ## C8: what ratio the accuracy indicator computes -/

theorem treffsikkerhetLoop_closed (utslag : List FeilDict)
    (edits : List (String × String)) :
    ∀ (dok : List (String × Nat)) (a b : Nat),
      treffsikkerhetLoop utslag edits dok a b =
        (dok.map (fun p =>
            (p.1, (cellerMarkertEditert utslag edits p.1 : ℚ) / (p.2 : ℚ) * 100)),
         a + (dok.map Prod.snd).sum,
         b + (dok.map (fun p => cellerMarkertEditert utslag edits p.1)).sum) := by
  intro dok
  induction dok with
  | nil => intro a b; simp [treffsikkerhetLoop]
  | cons p t ih =>
      intro a b
      obtain ⟨i, ku⟩ := p
      simp only [treffsikkerhetLoop, ih, List.map_cons, List.sum_cons]
      refine congrArg₂ Prod.mk rfl (congrArg₂ Prod.mk ?_ ?_) <;> omega

/-- C8 counterexample: one control with one flagged row whose error
lists two relevant variables, and one of those two cells edited.  The
code reports 100 % (1 edited over `Kontrollutslag = 1` row), while the
claimed fraction of flagged cells is 50 % (1 edited of 2 cells). -/
theorem C8_counterexample :
    beregn_treffsikkerhet dokAcc utslagAcc editsAcc =
      [("alder_over_100", 100), ("total", 100)] ∧
    claimedTreffsikkerhet dokAcc utslagAcc editsAcc =
      [("alder_over_100", 50), ("total", 50)] ∧
    beregn_treffsikkerhet dokAcc utslagAcc editsAcc ≠
      claimedTreffsikkerhet dokAcc utslagAcc editsAcc := by
  have hA : beregn_treffsikkerhet dokAcc utslagAcc editsAcc =
      [("alder_over_100", 100), ("total", 100)] := by
    simp [beregn_treffsikkerhet, treffsikkerhetLoop, cellerMarkertEditert,
      cellerMarkert, dokAcc, utslagAcc, editsAcc]
  have hB : claimedTreffsikkerhet dokAcc utslagAcc editsAcc =
      [("alder_over_100", 50), ("total", 50)] := by
    simp [claimedTreffsikkerhet, claimedCellAccuracy, cellerMarkert,
      dokAcc, utslagAcc, editsAcc]
    norm_num
  refine ⟨hA, hB, ?_⟩
  rw [hA, hB]
  intro hEq
  simp only [List.cons.injEq, Prod.mk.injEq] at hEq
  exact absurd hEq.1.2 (by norm_num)

/-- C8 (amended): per control, `beregn_treffsikkerhet` reports the
number of edit-list entries occurring among that control's flagged
cells, divided by the *documented `Kontrollutslag` row count* (not by
the number of flagged cells), times 100; the `"total"` entry divides
the summed numerators by the summed documented counts. -/
theorem C8_treffsikkerhet_formula (dok : List (String × Nat)) (utslag : List FeilDict)
    (edits : List (String × String)) :
    beregn_treffsikkerhet dok utslag edits =
      dok.map (fun p =>
        (p.1, (cellerMarkertEditert utslag edits p.1 : ℚ) / (p.2 : ℚ) * 100)) ++
      [("total",
        ((dok.map (fun p => cellerMarkertEditert utslag edits p.1)).sum : ℚ) /
          ((dok.map Prod.snd).sum : ℚ) * 100)] := by
  unfold beregn_treffsikkerhet
  rw [treffsikkerhetLoop_closed]
  simp

end SiriusDash
